import Mathlib

/-!
Shallow embedding of `hziv/test_socket_threading` (files `src/test.py` and
`src/tools.py`).

The repository runs a UDP transmitter thread and a UDP listener thread,
coordinated through a `State` object guarded by one condition variable.
Here the pure control logic is embedded:

* Python runtime values relevant to the `assert isinstance(...)` checks are
  modelled by the inductive `PyVal` (int / float / str / None tags).
* An `assert` failure is modelled by `Except.error Err.assertionError`
  (respectively by a `some Err.assertionError` component where the object
  survives the raised exception unchanged).
* The two thread loops (`TransmittingClientClass.transmitter_loop`,
  `ListeningServerClass.receiver_loop`) are embedded as functions consuming a
  finite trace of per-iteration environment observations: the value the peer
  thread may have written to the shared state just before the loop-head read
  (`envWrite`), the keyboard cancellation poll (`esc`, the
  `kbhit() and getch() == ESC` check), and for the listener the outcome of
  `recvfrom` (timeout / other socket error / success with a payload).
  Socket I/O itself and real-time sleeps are outside the embedding; the
  trace-oracle covers every interleaving of peer writes.
-/

namespace SocketThreadingTest

/-- Model of the Python runtime values the code's `isinstance` assertions
discriminate: `int`, `float`, `str` and `None`. Floats appear only as type
tags checked by `isinstance` (never computed with), so they are carried as
rationals. -/
inductive PyVal where
  | pint (n : Int)
  | pfloat (q : Rat)
  | pstr (s : String)
  | pnone
deriving DecidableEq, Repr

/-- The single failure class the embedded code raises: a Python
`AssertionError` from a failed `assert`. -/
inductive Err where
  | assertionError
deriving DecidableEq, Repr

def PyVal.isInt : PyVal → Bool
  | .pint _ => true
  | _ => false

def PyVal.isFloat : PyVal → Bool
  | .pfloat _ => true
  | _ => false

def PyVal.isStr : PyVal → Bool
  | .pstr _ => true
  | _ => false

/-- `assert isinstance(v, int)` followed by `assert bound < v`, the pattern
used by every constructor-time range check in `test.py`. `false` when either
assertion fails. -/
def pyIntGt (v : PyVal) (bound : Int) : Bool :=
  match v with
  | .pint n => bound < n
  | _ => false

/-- `CONFIG_VERSION = 0.1` from `src/test.py`. -/
def CONFIG_VERSION : Rat := 1 / 10

/-- `DEFAULT_CFG` from `src/test.py` (the f-string with `CONFIG_VERSION`
already interpolated). Only its type (`str`) matters to the embedded checks. -/
def DEFAULT_CFG : String :=
  "# test.py configuration file.\n# use # to mark comments.  Note # has to be first character in line.\n\nconfig_version = 0.1\n\n############################\n# important file locations #\n############################\n# use slash (/) or single back-slash (\\) as path separators.\n\ndefault_destination_directory = .\\tmp\n\nmaximum_num_of_iterations = 1000\nport = 11999\nbuffer_size = 1024"

/-- The head of `Config.__init__` from `src/tools.py`
(`def __init__(self, path=None, config_version=_CONFIG_VERSION, default_cfg=_DEFAULT_CFG)`):
after creating the logger it runs `assert isinstance(config_version, float)`
and then `assert isinstance(default_cfg, str)`; only after both pass does
control reach the path handling and file reading. `.ok ()` marks control
reaching that file-reading phase (file I/O itself is outside the embedding),
so an `.error` result means no configuration value was ever read. -/
def configInitChecks (path config_version default_cfg : PyVal) : Except Err Unit :=
  if config_version.isFloat then
    if default_cfg.isStr then
      Except.ok ()
    else
      Except.error Err.assertionError
  else
    Except.error Err.assertionError

/-- `ArgumentsAndConfigProcessing.__init__` from `src/test.py`: it runs
`assert isinstance(config_path, str)` and then calls
`Config(CONFIG_VERSION, config_path, DEFAULT_CFG)` with positional
arguments, so `CONFIG_VERSION` binds to `Config`'s first parameter `path`
and `config_path` binds to its second parameter `config_version`. -/
def argumentsAndConfigProcessingInit (config_path : PyVal) : Except Err Unit :=
  if config_path.isStr then
    configInitChecks (PyVal.pfloat CONFIG_VERSION) config_path (PyVal.pstr DEFAULT_CFG)
  else
    Except.error Err.assertionError

/-! ## The `State` class (`src/test.py`, lines 80-106)

`State.state`'s setter is annotated `Union[str, int]` and enforces that
domain with `assert isinstance(new_value, (str, int))`; the value domain is
therefore embedded as the inductive `SVal` (on which that first assertion
holds by construction), and the remaining assertion
`assert new_value in self._approved_values` is the membership check below. -/

/-- A state-machine value: a Python `str` or `int`, the declared domain of
`State.state`'s setter. -/
inductive SVal where
  | s (v : String)
  | i (n : Int)
deriving DecidableEq, Repr

/-- The `State` class data: `_approved_values` and `_state`. -/
structure State where
  approved_values : List SVal
  state : SVal
deriving DecidableEq, Repr

/-- `State.__init__`: `assert len(approved_values) > 0`, then
`self._approved_values = approved_values; self._state = self._approved_values[0]`.
(The `assert isinstance(approved_values, (tuple, list))` check holds by
construction of the `List` argument type.) -/
def stateInit (approved_values : List SVal) : Except Err State :=
  match approved_values with
  | [] => Except.error Err.assertionError
  | v :: _ => Except.ok { approved_values := approved_values, state := v }

/-- The `State.state` setter:
`assert new_value in self._approved_values` then `self._state = new_value`.
A failed assertion raises before the assignment, so the object is returned
unchanged together with the error; on success the error component is `none`.
(`MultiThreadStateCommunicationClass`'s setter performs exactly this under
`with self._condition`; the lock only serialises access and adds no logic.) -/
def State.setState (st : State) (new_value : SVal) : State × Option Err :=
  if new_value ∈ st.approved_values then
    ({ st with state := new_value }, none)
  else
    (st, some Err.assertionError)

/-- The `State.state` getter: returns `self._state`, leaving the object
untouched (the second component is the object after the call). -/
def State.getState (st : State) : SVal × State :=
  (st.state, st)

/-- The listener's terminal value `"listener_server_stopped"`. -/
def listenerStoppedVal : SVal := SVal.s "listener_server_stopped"

/-- The tail of `ListeningServerClass.receiver_loop` (lines 222-223):
`if self.state != "listener_server_stopped": self.state = "listener_server_stopped"`.
When the state already equals the terminal value the setter is never invoked. -/
def forceStopListener (st : State) : State × Option Err :=
  if st.state ≠ listenerStoppedVal then
    st.setState listenerStoppedVal
  else
    (st, none)

/-! ## Datagram payload encoding

`TransmittingClientClass.transmitter_loop` sends
`str.encode(str(cnt))`: the decimal ASCII rendering of the counter, as
bytes. The digit list of `str(cnt)` (most significant first) and the byte
encoding are embedded below; `fuel`-structured recursion keeps the
definitions kernel-reducible. -/

/-- Most-significant-first decimal digit list of `n`, with enough `fuel`
(any `fuel > n` suffices). -/
def toDigitsAux : Nat → Nat → List Nat
  | 0, _ => []
  | fuel + 1, n =>
    if n < 10 then [n] else toDigitsAux fuel (n / 10) ++ [n % 10]

/-- Most-significant-first decimal digit list of `n`, as produced by
Python's `str(n)` for a non-negative `n`. -/
def toDigits (n : Nat) : List Nat :=
  toDigitsAux (n + 1) n

/-- The bytes of `str.encode(str(cnt))`: each decimal digit as its ASCII
code (`'0'` is 48). -/
def payloadBytes (cnt : Nat) : List Nat :=
  (toDigits cnt).map (fun d => d + 48)

/-- Read a most-significant-first decimal digit list back as a number. -/
def fromDigits (ds : List Nat) : Nat :=
  ds.foldl (fun a d => 10 * a + d) 0

/-- Decode a received datagram payload (ASCII decimal bytes) back to the
integer counter value. -/
def decodePayload (p : List Nat) : Nat :=
  fromDigits (p.map (fun b => b - 48))

/-! ## `TransmittingClientClass` (`src/test.py`, lines 247-310) -/

/-- Constructor-time assertions of `TransmittingClientClass.__init__`:
`assert isinstance(socket_port, int)`, `assert socket_port > 1000`,
`assert isinstance(maximum_num_of_iterations, int)`,
`assert maximum_num_of_iterations > 1`. (Socket creation is I/O and raises
nothing for an unbound UDP socket.) -/
def transmittingClientInitOk (socket_port maximum_num_of_iterations : PyVal) : Bool :=
  pyIntGt socket_port 1000 && pyIntGt maximum_num_of_iterations 1

/-- One iteration's environment observations for the transmitter loop:
`envWrite` is an optional shared-state write by the peer thread landing
between the previous iteration and this loop-head read of `self.state`;
`esc` is the result of the `kbhit() and getch().decode() == chr(27)` poll. -/
structure TransObs where
  envWrite : Option String
  esc : Bool
deriving DecidableEq, Repr

/-- Result of running the transmitter loop over a finite observation trace:
`exited` is true when the `while` condition failed (loop left on its own),
false when the trace was exhausted with the loop still running;
`finalState` the shared-state value at that point, `finalCnt` the counter,
`sent` the datagram payloads sent, in order. -/
structure TransRun where
  exited : Bool
  finalState : String
  finalCnt : Nat
  sent : List (List Nat)
deriving DecidableEq, Repr

/-- `TransmittingClientClass.transmitter_loop` body, from counter `cnt` and
shared-state value `stateVal`:
`while self.state != "listener_server_stopped":` — on ESC,
`self.state = "transmitter_client_stopped"` (a value in the approved list,
so the setter succeeds) and the iteration falls through; then
`self.server_socket.sendto(str.encode(str(cnt)), ...)`, `sleep(0.5)`,
`cnt += 1`. The loop body never consults `maximum_num_of_iterations`. -/
def transmitter_loop (cnt : Nat) (stateVal : String) : List TransObs → TransRun
  | [] => { exited := false, finalState := stateVal, finalCnt := cnt, sent := [] }
  | o :: rest =>
    let s := o.envWrite.getD stateVal
    if s = "listener_server_stopped" then
      { exited := true, finalState := s, finalCnt := cnt, sent := [] }
    else
      let s2 := if o.esc then "transmitter_client_stopped" else s
      let r := transmitter_loop (cnt + 1) s2 rest
      { r with sent := payloadBytes cnt :: r.sent }

/-! ## `ListeningServerClass` (`src/test.py`, lines 164-237) -/

/-- Constructor-time assertions of `ListeningServerClass.__init__`:
`assert isinstance(socket_port, int)`, `assert socket_port > 1000`,
`assert isinstance(buffer_size, int)`, `assert buffer_size > 1`. -/
def listeningServerInitOk (socket_port buffer_size : PyVal) : Bool :=
  pyIntGt socket_port 1000 && pyIntGt buffer_size 1

/-- Outcome of one `self.server_socket.recvfrom(self.buffer_size)` call:
a `socket.timeout`, another `socket.error`, or a received payload. -/
inductive RecvEvent where
  | timeoutEvt
  | errorEvt
  | success (payload : List Nat)
deriving DecidableEq, Repr

/-- One iteration's environment observations for the receiver loop
(`envWrite` and `esc` as for the transmitter, plus the `recvfrom` outcome). -/
structure ListenObs where
  envWrite : Option String
  esc : Bool
  recv : RecvEvent
deriving DecidableEq, Repr

/-- Result of running the receiver loop over a finite observation trace:
`exited` true when the loop left via its `while` condition or `break`,
false when the trace ran out first; `finalRetry` the retry counter at that
point; `timeouts` the number of timeout events consumed; `received` the
successfully received payloads, in order. -/
structure ListenRun where
  exited : Bool
  finalState : String
  finalRetry : Nat
  timeouts : Nat
  received : List (List Nat)
deriving DecidableEq, Repr

/-- The `while` part of `ListeningServerClass.receiver_loop`, from retry
counter `retry_cnt` and shared-state value `stateVal`:
`while self.state == "running" and retry_cnt > 0:` — on ESC,
`self.state = "listener_server_stopped"`; then `recvfrom`: on
`socket.timeout`, `retry_cnt -= 1; continue`; on other `socket.error`,
`break`; on success, log the payload and continue. The retry counter is
never increased or reset. -/
def receiver_loop_core (retry_cnt : Nat) (stateVal : String) : List ListenObs → ListenRun
  | [] =>
    { exited := false, finalState := stateVal, finalRetry := retry_cnt
      timeouts := 0, received := [] }
  | o :: rest =>
    let s := o.envWrite.getD stateVal
    if s = "running" ∧ 0 < retry_cnt then
      let s2 := if o.esc then "listener_server_stopped" else s
      match o.recv with
      | RecvEvent.timeoutEvt =>
        let r := receiver_loop_core (retry_cnt - 1) s2 rest
        { r with timeouts := r.timeouts + 1 }
      | RecvEvent.errorEvt =>
        { exited := true, finalState := s2, finalRetry := retry_cnt
          timeouts := 0, received := [] }
      | RecvEvent.success p =>
        let r := receiver_loop_core retry_cnt s2 rest
        { r with received := p :: r.received }
    else
      { exited := true, finalState := s, finalRetry := retry_cnt
        timeouts := 0, received := [] }

/-- `ListeningServerClass.receiver_loop`: `retry_cnt = 2`, the `while` loop,
then on loop exit
`if self.state != "listener_server_stopped": self.state = "listener_server_stopped"`
(both written values are in the approved list, so the setter succeeds and
the net effect on the shared value is shown). -/
def receiver_loop (stateVal : String) (trace : List ListenObs) : ListenRun :=
  if (receiver_loop_core 2 stateVal trace).exited then
    if (receiver_loop_core 2 stateVal trace).finalState ≠ "listener_server_stopped" then
      { receiver_loop_core 2 stateVal trace with finalState := "listener_server_stopped" }
    else
      receiver_loop_core 2 stateVal trace
  else
    receiver_loop_core 2 stateVal trace

/-! ## `MainClass` (`src/test.py`, lines 320-376) -/

/-- Constructor-time assertions of `MainClass.__init__`:
`assert isinstance(maximum_num_of_iterations, int)`,
`assert maximum_num_of_iterations > 1`; `assert isinstance(port, int)`,
`assert port > 1000`; `assert isinstance(buffer_size, int)`,
`assert buffer_size > 0`. -/
def mainClassInitOk (maximum_num_of_iterations port buffer_size : PyVal) : Bool :=
  pyIntGt maximum_num_of_iterations 1 && pyIntGt port 1000 && pyIntGt buffer_size 0

/-- Construction of the core as the program performs it:
`MainClass.__init__` with the resolved configuration, then `MainClass.run`
constructing `TransmittingClientClass` and `ListeningServerClass` with the
stored values; an assertion failure anywhere aborts the whole sequence. -/
def coreConstructOk (maximum_num_of_iterations port buffer_size : PyVal) : Bool :=
  mainClassInitOk maximum_num_of_iterations port buffer_size
    && transmittingClientInitOk port maximum_num_of_iterations
    && listeningServerInitOk port buffer_size

/-! ## Helper lemmas -/

lemma fromDigits_append_single (xs : List Nat) (d : Nat) :
    fromDigits (xs ++ [d]) = 10 * fromDigits xs + d := by
  simp [fromDigits, List.foldl_append]

lemma fromDigits_toDigitsAux :
    ∀ (fuel n : Nat), n < fuel → fromDigits (toDigitsAux fuel n) = n := by
  intro fuel
  induction fuel with
  | zero => intro n h; omega
  | succ fuel ih =>
    intro n h
    by_cases h10 : n < 10
    · simp [toDigitsAux, h10, fromDigits]
    · have hdiv : n / 10 < fuel := by omega
      simp only [toDigitsAux, h10, if_false, fromDigits_append_single, ih _ hdiv]
      omega

lemma decodePayload_payloadBytes (n : Nat) :
    decodePayload (payloadBytes n) = n := by
  have h : fromDigits (toDigits n) = n :=
    fromDigits_toDigitsAux (n + 1) n (Nat.lt_succ_self n)
  have hcomp : ((fun b => b - 48) ∘ fun d : Nat => d + 48) = fun d : Nat => d := by
    funext d
    simp
  simpa [decodePayload, payloadBytes, List.map_map, hcomp] using h

lemma transmitter_loop_exit_state (trace : List TransObs) :
    ∀ (cnt : Nat) (σ : String), (transmitter_loop cnt σ trace).exited = true →
      (transmitter_loop cnt σ trace).finalState = "listener_server_stopped" := by
  induction trace with
  | nil => intro cnt σ h; simp [transmitter_loop] at h
  | cons o rest ih =>
    intro cnt σ h
    by_cases hs : o.envWrite.getD σ = "listener_server_stopped"
    · simp [transmitter_loop, hs]
    · simp only [transmitter_loop, hs, if_false] at h ⊢
      exact ih _ _ h

lemma transmitter_loop_run_length (trace : List TransObs) :
    ∀ (cnt : Nat) (σ : String), (transmitter_loop cnt σ trace).exited = false →
      (transmitter_loop cnt σ trace).sent.length = trace.length := by
  induction trace with
  | nil => intro cnt σ _; simp [transmitter_loop]
  | cons o rest ih =>
    intro cnt σ h
    by_cases hs : o.envWrite.getD σ = "listener_server_stopped"
    · simp [transmitter_loop, hs] at h
    · simp only [transmitter_loop, hs, if_false, List.length_cons] at h ⊢
      rw [ih _ _ h]

lemma transmitter_loop_sent_getD (trace : List TransObs) :
    ∀ (cnt : Nat) (σ : String) (i : Nat),
      i < (transmitter_loop cnt σ trace).sent.length →
      (transmitter_loop cnt σ trace).sent.getD i [] = payloadBytes (cnt + i) := by
  induction trace with
  | nil => intro cnt σ i h; simp [transmitter_loop] at h
  | cons o rest ih =>
    intro cnt σ i h
    by_cases hs : o.envWrite.getD σ = "listener_server_stopped"
    · simp [transmitter_loop, hs] at h
    · simp only [transmitter_loop, hs, if_false] at h ⊢
      match i with
      | 0 => simp
      | i + 1 =>
        simp only [List.length_cons, Nat.add_lt_add_iff_right] at h
        simp only [List.getD_cons_succ]
        rw [ih _ _ i h]
        congr 1
        omega

lemma transmitter_loop_esc_step (cnt : Nat) (σ : String) (o : TransObs)
    (rest : List TransObs) (hs : o.envWrite.getD σ ≠ "listener_server_stopped")
    (hesc : o.esc = true) :
    transmitter_loop cnt σ (o :: rest) =
      { transmitter_loop (cnt + 1) "transmitter_client_stopped" rest with
        sent := payloadBytes cnt ::
          (transmitter_loop (cnt + 1) "transmitter_client_stopped" rest).sent } := by
  simp [transmitter_loop, hs, hesc]

lemma receiver_loop_core_retry (trace : List ListenObs) :
    ∀ (retry_cnt : Nat) (σ : String),
      (receiver_loop_core retry_cnt σ trace).finalRetry
        + (receiver_loop_core retry_cnt σ trace).timeouts = retry_cnt := by
  induction trace with
  | nil => intro retry_cnt σ; simp [receiver_loop_core]
  | cons o rest ih =>
    intro retry_cnt σ
    simp only [receiver_loop_core]
    by_cases hg : o.envWrite.getD σ = "running" ∧ 0 < retry_cnt
    · rw [if_pos hg]
      cases hrecv : o.recv with
      | timeoutEvt =>
        simp only
        have := ih (retry_cnt - 1)
          (if o.esc then "listener_server_stopped" else o.envWrite.getD σ)
        omega
      | errorEvt => simp
      | success p =>
        simp only
        exact ih retry_cnt _
    · rw [if_neg hg]
      simp

lemma receiver_loop_core_zero (σ : String) (o : ListenObs) (rest : List ListenObs) :
    receiver_loop_core 0 σ (o :: rest) =
      { exited := true, finalState := o.envWrite.getD σ, finalRetry := 0
        timeouts := 0, received := [] } := by
  simp [receiver_loop_core]

lemma receiver_loop_fields (σ : String) (trace : List ListenObs) :
    (receiver_loop σ trace).finalRetry = (receiver_loop_core 2 σ trace).finalRetry ∧
    (receiver_loop σ trace).timeouts = (receiver_loop_core 2 σ trace).timeouts := by
  unfold receiver_loop
  split
  · split <;> simp
  · simp

lemma receiver_loop_exited_state (σ : String) (trace : List ListenObs) :
    (receiver_loop σ trace).exited = true →
      (receiver_loop σ trace).finalState = "listener_server_stopped" := by
  unfold receiver_loop
  split
  · split
    · intro _
      rfl
    · rename_i hne
      exact fun _ => not_not.mp hne
  · rename_i hne
    intro h
    exact absurd h hne

lemma pyIntGt_eq_true (v : PyVal) (c : Int) :
    pyIntGt v c = true ↔ ∃ n : Int, v = PyVal.pint n ∧ c < n := by
  cases v <;> simp [pyIntGt]

/-! ## Claims -/

/-- C1, counterexample: `TransmittingClientClass` accepts
`maximum_num_of_iterations = 2` at construction, yet a run of
`transmitter_loop` in which the shared state stays `"running"` for three
iterations sends three datagrams — more than the iteration budget — and has
not terminated: the loop never consults the budget. -/
theorem c1_iteration_budget_counterexample :
    transmittingClientInitOk (PyVal.pint 11999) (PyVal.pint 2) = true ∧
    (transmitter_loop 0 "running"
        [{ envWrite := none, esc := false }, { envWrite := none, esc := false },
          { envWrite := none, esc := false }]).exited = false ∧
    2 < (transmitter_loop 0 "running"
        [{ envWrite := none, esc := false }, { envWrite := none, esc := false },
          { envWrite := none, esc := false }]).sent.length := by
  decide

/-- C1, amended: the transmit loop terminates exactly on observing the
shared state at `"listener_server_stopped"`; as long as that value is not
observed, every iteration sends a datagram — `maximum_num_of_iterations` is
validated at construction but never bounds the number of datagrams sent. -/
theorem c1_transmit_loop_termination :
    ∀ (σ : String) (trace : List TransObs),
      ((transmitter_loop 0 σ trace).exited = true →
        (transmitter_loop 0 σ trace).finalState = "listener_server_stopped") ∧
      ((transmitter_loop 0 σ trace).exited = false →
        (transmitter_loop 0 σ trace).sent.length = trace.length) :=
  fun σ trace =>
    ⟨transmitter_loop_exit_state trace 0 σ, transmitter_loop_run_length trace 0 σ⟩

/-- C1, witness for the amended theorem at concrete traces. -/
theorem c1_transmit_loop_termination_witness :
    (transmitter_loop 0 "running"
        [{ envWrite := some "listener_server_stopped", esc := false }]).finalState
      = "listener_server_stopped" ∧
    (transmitter_loop 0 "running" [{ envWrite := none, esc := false }]).sent.length = 1 :=
  ⟨(c1_transmit_loop_termination "running"
      [{ envWrite := some "listener_server_stopped", esc := false }]).1 (by decide),
   (c1_transmit_loop_termination "running"
      [{ envWrite := none, esc := false }]).2 (by decide)⟩

/-- C2: for every string `config_path`, `ArgumentsAndConfigProcessing`'s
constructor fails with an `AssertionError` before any configuration value is
read: the positional call `Config(CONFIG_VERSION, config_path, DEFAULT_CFG)`
binds the float to `Config`'s `path` parameter and the path string to its
`config_version` parameter, so `assert isinstance(config_version, float)`
fails, and control never reaches the file-reading phase. -/
theorem c2_config_argument_swap :
    ∀ s : String,
      argumentsAndConfigProcessingInit (PyVal.pstr s)
        = Except.error Err.assertionError :=
  fun _ => rfl

/-- C3: in the listener's receive loop the retry counter starts at 2 and is
decremented by exactly one per consumed timeout and by nothing else, so the
final counter plus the consumed timeouts always equals 2 and at most 2
timeouts in total are consumed over the whole loop, consecutive or not;
moreover with the counter at zero the loop exits at once, consuming no
receive event. -/
theorem c3_retry_budget :
    (∀ (σ : String) (trace : List ListenObs),
        (receiver_loop σ trace).timeouts ≤ 2 ∧
        (receiver_loop σ trace).finalRetry + (receiver_loop σ trace).timeouts = 2) ∧
    (∀ (σ : String) (o : ListenObs) (rest : List ListenObs),
        (receiver_loop_core 0 σ (o :: rest)).exited = true ∧
        (receiver_loop_core 0 σ (o :: rest)).timeouts = 0 ∧
        (receiver_loop_core 0 σ (o :: rest)).received = []) := by
  constructor
  · intro σ trace
    obtain ⟨h1, h2⟩ := receiver_loop_fields σ trace
    have h3 := receiver_loop_core_retry trace 2 σ
    constructor <;> omega
  · intro σ o rest
    rw [receiver_loop_core_zero]
    exact ⟨rfl, rfl, rfl⟩

/-- C4: the construction sequence the program performs with the resolved
configuration (`MainClass.__init__`, then `MainClass.run` constructing
`TransmittingClientClass` and `ListeningServerClass`) passes all assertions
exactly when `maximum_num_of_iterations` is an int greater than 1, `port`
an int greater than 1000 and `buffer_size` an int greater than 1; in
particular `buffer_size = 1` is rejected (it passes `MainClass`'s own
`buffer_size > 0` check but fails the listener's `buffer_size > 1`). -/
theorem c4_config_validation :
    (∀ m p b : PyVal,
        coreConstructOk m p b = true ↔
          ∃ (mi pi bi : Int),
            m = PyVal.pint mi ∧ p = PyVal.pint pi ∧ b = PyVal.pint bi ∧
            1 < mi ∧ 1000 < pi ∧ 1 < bi) ∧
    (∀ m p : PyVal, coreConstructOk m p (PyVal.pint 1) = false) := by
  constructor
  · intro m p b
    cases m <;> cases p <;> cases b <;>
      simp [coreConstructOk, mainClassInitOk, transmittingClientInitOk,
        listeningServerInitOk, pyIntGt]
    omega
  · intro m p
    simp [coreConstructOk, listeningServerInitOk, pyIntGt]

/-- C4, witness: a configuration inside the ranges is accepted and
`buffer_size = 1` is rejected. -/
theorem c4_config_validation_witness :
    coreConstructOk (PyVal.pint 1000) (PyVal.pint 11999) (PyVal.pint 64) = true ∧
    coreConstructOk (PyVal.pint 1000) (PyVal.pint 11999) (PyVal.pint 1) = false :=
  ⟨(c4_config_validation.1 (PyVal.pint 1000) (PyVal.pint 11999) (PyVal.pint 64)).mpr
      ⟨1000, 11999, 64, rfl, rfl, rfl, by omega, by omega, by omega⟩,
   c4_config_validation.2 (PyVal.pint 1000) (PyVal.pint 11999)⟩

/-- C5: in the transmitter's main loop a cancellation signal (ESC) during an
iteration whose head read is not `"listener_server_stopped"` sets the shared
state to `"transmitter_client_stopped"`, still sends this iteration's
datagram, and continues looping; the loop exits only at a head read of
`"listener_server_stopped"` (an exited run always ends in that state). -/
theorem c5_cancel_keeps_looping :
    (∀ (cnt : Nat) (σ : String) (o : TransObs) (rest : List TransObs),
        o.envWrite.getD σ ≠ "listener_server_stopped" → o.esc = true →
        transmitter_loop cnt σ (o :: rest) =
          { transmitter_loop (cnt + 1) "transmitter_client_stopped" rest with
            sent := payloadBytes cnt ::
              (transmitter_loop (cnt + 1) "transmitter_client_stopped" rest).sent }) ∧
    (∀ (σ : String) (trace : List TransObs),
        (transmitter_loop 0 σ trace).exited = true →
        (transmitter_loop 0 σ trace).finalState = "listener_server_stopped") :=
  ⟨transmitter_loop_esc_step,
   fun σ trace => transmitter_loop_exit_state trace 0 σ⟩

/-- C5, witness at concrete inputs: a cancelled iteration from `"running"`
sends and continues; a loop observing `"listener_server_stopped"` exits in
that state. -/
theorem c5_cancel_keeps_looping_witness :
    transmitter_loop 0 "running" [{ envWrite := none, esc := true }] =
      { transmitter_loop 1 "transmitter_client_stopped" [] with
        sent := payloadBytes 0 ::
          (transmitter_loop 1 "transmitter_client_stopped" []).sent } ∧
    (transmitter_loop 0 "idle"
        [{ envWrite := some "listener_server_stopped", esc := false }]).finalState
      = "listener_server_stopped" :=
  ⟨c5_cancel_keeps_looping.1 0 "running" { envWrite := none, esc := true } []
      (by decide) rfl,
   c5_cancel_keeps_looping.2 "idle"
      [{ envWrite := some "listener_server_stopped", esc := false }] (by decide)⟩

/-- C6: `State`'s setter raises an `AssertionError` and leaves the object
unchanged when the value is not in the approved list, and otherwise assigns
the current state to the value (the lock around it in
`MultiThreadStateCommunicationClass` adds no logic). -/
theorem c6_set_approved_only :
    ∀ (st : State) (v : SVal),
      (v ∉ st.approved_values → st.setState v = (st, some Err.assertionError)) ∧
      (v ∈ st.approved_values → st.setState v = ({ st with state := v }, none)) := by
  intro st v
  constructor
  · intro hv
    simp [State.setState, hv]
  · intro hv
    simp [State.setState, hv]

/-- C6, witness: a concrete `State` rejects a value outside its approved
list unchanged and accepts a member. -/
theorem c6_set_approved_only_witness :
    State.setState
        { approved_values := [SVal.s "idle", SVal.s "running"], state := SVal.s "idle" }
        (SVal.s "bogus")
      = ({ approved_values := [SVal.s "idle", SVal.s "running"], state := SVal.s "idle" },
          some Err.assertionError) ∧
    State.setState
        { approved_values := [SVal.s "idle", SVal.s "running"], state := SVal.s "idle" }
        (SVal.s "running")
      = ({ approved_values := [SVal.s "idle", SVal.s "running"], state := SVal.s "running" },
          none) :=
  ⟨(c6_set_approved_only
      { approved_values := [SVal.s "idle", SVal.s "running"], state := SVal.s "idle" }
      (SVal.s "bogus")).1 (by decide),
   (c6_set_approved_only
      { approved_values := [SVal.s "idle", SVal.s "running"], state := SVal.s "idle" }
      (SVal.s "running")).2 (by decide)⟩

/-- C7: the invariant "current state is a member of the approved list" holds
for every successfully constructed `State`, is preserved by the setter
(whether the set is accepted or rejected — a rejected set leaves the object
unchanged), and is preserved by the getter, which does not touch the
object. -/
theorem c7_state_invariant :
    (∀ (E : List SVal) (st : State), stateInit E = Except.ok st →
        st.state ∈ st.approved_values) ∧
    (∀ (st : State) (v : SVal), st.state ∈ st.approved_values →
        (st.setState v).1.state ∈ (st.setState v).1.approved_values) ∧
    (∀ st : State, st.state ∈ st.approved_values →
        (State.getState st).2.state ∈ (State.getState st).2.approved_values ∧
        State.getState st = (st.state, st)) := by
  refine ⟨?_, ?_, ?_⟩
  · intro E st h
    cases E with
    | nil => simp [stateInit] at h
    | cons v rest =>
      simp only [stateInit, Except.ok.injEq] at h
      subst h
      simp
  · intro st v hv
    by_cases hm : v ∈ st.approved_values <;> simp [State.setState, hm, hv]
  · intro st hv
    exact ⟨hv, rfl⟩

/-- C7, witness at a concrete `State`. -/
theorem c7_state_invariant_witness :
    (({ approved_values := [SVal.s "idle"], state := SVal.s "idle" } : State).state
      ∈ ({ approved_values := [SVal.s "idle"], state := SVal.s "idle" } : State).approved_values) ∧
    ((State.setState { approved_values := [SVal.s "idle"], state := SVal.s "idle" }
        (SVal.s "bogus")).1.state
      ∈ (State.setState { approved_values := [SVal.s "idle"], state := SVal.s "idle" }
        (SVal.s "bogus")).1.approved_values) :=
  ⟨c7_state_invariant.1 [SVal.s "idle"]
      { approved_values := [SVal.s "idle"], state := SVal.s "idle" } rfl,
   c7_state_invariant.2.1 { approved_values := [SVal.s "idle"], state := SVal.s "idle" }
      (SVal.s "bogus") (by decide)⟩

/-- C9: the listener's terminal force-stop transition
(`if state != "listener_server_stopped": state = "listener_server_stopped"`)
always leaves the state at the terminal value with no error (given the
terminal value is approved, as it is in the program); applied when the state
is already terminal it does nothing and raises no error regardless of the
approved list; it is idempotent; and any run of `receiver_loop` whose loop
exited ends with the shared value forced to `"listener_server_stopped"`. -/
theorem c9_force_stop_idempotent :
    (∀ st : State, listenerStoppedVal ∈ st.approved_values →
        (forceStopListener st).1.state = listenerStoppedVal ∧
        (forceStopListener st).2 = none) ∧
    (∀ st : State, st.state = listenerStoppedVal →
        forceStopListener st = (st, none)) ∧
    (∀ st : State, listenerStoppedVal ∈ st.approved_values →
        forceStopListener (forceStopListener st).1 = ((forceStopListener st).1, none)) ∧
    (∀ (σ : String) (trace : List ListenObs),
        (receiver_loop σ trace).exited = true →
        (receiver_loop σ trace).finalState = "listener_server_stopped") := by
  have hforced : ∀ st : State, listenerStoppedVal ∈ st.approved_values →
      (forceStopListener st).1.state = listenerStoppedVal ∧
      (forceStopListener st).2 = none := by
    intro st hmem
    by_cases hst : st.state = listenerStoppedVal
    · simp [forceStopListener, hst]
    · simp [forceStopListener, hst, State.setState, hmem]
  have hskip : ∀ st : State, st.state = listenerStoppedVal →
      forceStopListener st = (st, none) := by
    intro st hst
    simp [forceStopListener, hst]
  refine ⟨hforced, hskip, ?_, ?_⟩
  · intro st hmem
    exact hskip _ (hforced st hmem).1
  · exact receiver_loop_exited_state

/-- C9, witness at concrete states and a concrete receive trace. -/
theorem c9_force_stop_idempotent_witness :
    ((forceStopListener
        { approved_values := [SVal.s "running", listenerStoppedVal],
          state := SVal.s "running" }).1.state = listenerStoppedVal) ∧
    (forceStopListener
        { approved_values := [SVal.s "running", listenerStoppedVal],
          state := listenerStoppedVal }
      = ({ approved_values := [SVal.s "running", listenerStoppedVal],
           state := listenerStoppedVal }, none)) ∧
    ((receiver_loop "running"
        [{ envWrite := none, esc := false, recv := RecvEvent.errorEvt }]).finalState
      = "listener_server_stopped") :=
  ⟨(c9_force_stop_idempotent.1
      { approved_values := [SVal.s "running", listenerStoppedVal],
        state := SVal.s "running" } (by decide)).1,
   c9_force_stop_idempotent.2.1
      { approved_values := [SVal.s "running", listenerStoppedVal],
        state := listenerStoppedVal } rfl,
   c9_force_stop_idempotent.2.2.2 "running"
      [{ envWrite := none, esc := false, recv := RecvEvent.errorEvt }] (by decide)⟩

/-- C8: every datagram the transmitter sends is the decimal ASCII encoding
of the counter, which starts at 0 and increases by 1 per send (the `i`-th
payload encodes `i`), and decoding a payload recovers exactly the counter
value it encoded — no corruption. -/
theorem c8_payload_roundtrip :
    (∀ (σ : String) (trace : List TransObs) (i : Nat),
        i < (transmitter_loop 0 σ trace).sent.length →
        (transmitter_loop 0 σ trace).sent.getD i [] = payloadBytes i) ∧
    (∀ n : Nat, decodePayload (payloadBytes n) = n) := by
  constructor
  · intro σ trace i h
    have := transmitter_loop_sent_getD trace 0 σ i h
    simpa using this
  · exact decodePayload_payloadBytes

/-- C8, witness: the second payload of a concrete run encodes 1, and a
concrete payload round-trips. -/
theorem c8_payload_roundtrip_witness :
    (transmitter_loop 0 "running"
        [{ envWrite := none, esc := false },
          { envWrite := none, esc := false }]).sent.getD 1 []
      = payloadBytes 1 ∧
    decodePayload (payloadBytes 2026) = 2026 :=
  ⟨c8_payload_roundtrip.1 "running"
      [{ envWrite := none, esc := false }, { envWrite := none, esc := false }] 1
      (by decide),
   c8_payload_roundtrip.2 2026⟩

/-- C10: a `State` constructed from a non-empty approved list starts with
its current state equal to the first element of that list. -/
theorem c10_initial_state :
    ∀ (v : SVal) (rest : List SVal),
      stateInit (v :: rest)
        = Except.ok { approved_values := v :: rest, state := v } :=
  fun _ _ => rfl

end SocketThreadingTest
